import Mathlib

/-!
Shallow embedding of the tracing-exception subsystem of
FreeRDP-WebConnect, `src/wsgate/btexception.hpp`.

The header defines, in namespace `tracing`:
  * `dummy_tracer` — fully implemented inline (lines 17-26);
  * `bfd_tracer` / `dwarf_tracer` — rich backends whose constructors,
    destructors and `trace` members are declared in the header but defined
    outside `src/`; those bodies are modelled from the spec
    (sections 4.2 and 4.3) and marked `Modelled from the spec:` below;
  * `exception` — the traceable base class; its constructor and `where()`
    are likewise declared only (lines 130, 138), modelled from spec 4.5;
  * `runtime_error` / `logic_error` — the two category bases, implemented
    inline (lines 158-169, 176-187);
  * the named leaves (`domain_error`, `invalid_argument`, `length_error`,
    `out_of_range`, `range_error`, `overflow_error`, `underflow_error`);
    only `invalid_argument`'s constructor is inline (line 202), the other
    leaf constructors are declared only and modelled from spec 4.6.

Machine integers of the C++ (`int maxframes`, `int frames`, `int skip`)
are embedded as `Int`; raw return addresses as `Nat`.
-/

namespace tracing

/-- A raw stack frame: an opaque machine address captured from the runtime
call stack (the elements of `void **tbuf` in the header). -/
abbrev StackFrame := Nat

/-- Hexadecimal rendering of a raw address, the "0xADDR" form used in
trace lines. -/
def hexAddr (a : StackFrame) : String :=
  "0x" ++ (Nat.toDigits 16 a).asString

/-- A symbol resolver: maps a raw address to an optional function name and
an optional (source file, line) pair.  This stands for the process-wide
debug-information index the rich backends consult; resolution is
best-effort, so both components may be absent. -/
abbrev Resolver := StackFrame → Option String × Option (String × Nat)

/-- Modelled from the spec: the Frame Capturer operation (spec 4.2) shared
by the rich backends, whose constructor bodies are not under `src/`.
`stack` is the ambient call stack (innermost first) as seen by the native
stack-walk facility at capture time, or `none` when that facility is
unavailable or fails.  Up to `maxframes` addresses are collected; a zero
or negative `maxframes`, or a failed walk, yields an empty buffer and no
error. -/
def capture (stack : Option (List StackFrame)) (maxframes : Int) :
    List StackFrame :=
  match stack with
  | none => []
  | some s => s.take maxframes.toNat

/-- Modelled from the spec: rendering of one retained frame under the
degradation policy of spec 4.3.  A fully resolved frame shows function,
file and line; a frame whose function resolves but whose source line does
not is shown as "function @ 0xADDR"; a frame resolving to neither is shown
as "0xADDR" alone. -/
def renderFrame (resolve : Resolver) (f : StackFrame) : String :=
  match resolve f with
  | (some fn, some loc) => fn ++ " (" ++ loc.1 ++ ":" ++ toString loc.2 ++ ")"
  | (some fn, none) => fn ++ " @ " ++ hexAddr f
  | (none, _) => hexAddr f

/-- Modelled from the spec: the Symbol Resolver render operation
(spec 4.3) shared by the rich backends' `trace` members, whose bodies are
not under `src/`.  One output line per retained frame, innermost first,
with the `skip` innermost frames omitted; a negative skip omits nothing
and a skip beyond the buffer length yields no lines, never an error. -/
def render (resolve : Resolver) (buf : List StackFrame) (skip : Int) :
    List String :=
  (buf.drop skip.toNat).map (renderFrame resolve)

/-- The empty backtrace generator (header lines 17-26), used when neither
BFD nor Dwarf is available.  Its constructor `dummy_tracer(int)` ignores
its argument and holds no state. -/
structure dummy_tracer where

/-- `dummy_tracer::dummy_tracer(int)` (header line 20): ignores the
max-frames argument. -/
def dummy_tracer.construct (_maxframes : Int) : dummy_tracer := ⟨⟩

/-- `dummy_tracer::trace(int)` (header lines 22-25): ignores the skip
argument and returns the fixed sentinel. -/
def dummy_tracer.trace (_ : dummy_tracer) (_skip : Int) : String :=
  "Tracing disabled"

/-- The BFD backend's data members (header lines 64-70): the size of the
frame array, the number of frames actually used, and the frame array
itself (here the captured address list). -/
structure bfd_tracer where
  maxframes : Int
  frames : Int
  tbuf : List StackFrame

/-- Modelled from the spec: `bfd_tracer::bfd_tracer(int)` (declared header
line 43, defined outside `src/`): captures the current stack at
construction, up to `_maxframes` frames (spec 4.2). -/
def bfd_tracer.construct (stack : Option (List StackFrame))
    (_maxframes : Int) : bfd_tracer :=
  let buf := capture stack _maxframes
  ⟨_maxframes, (buf.length : Int), buf⟩

/-- Modelled from the spec: the lines of `bfd_tracer::trace(int)` (declared
header line 59, defined outside `src/`): renders the captured buffer with
the given skip (spec 4.3). -/
def bfd_tracer.traceLines (resolve : Resolver) (t : bfd_tracer)
    (skip : Int) : List String :=
  render resolve t.tbuf skip

/-- Modelled from the spec: `bfd_tracer::trace(int)` as a single multi-line
string. -/
def bfd_tracer.trace (resolve : Resolver) (t : bfd_tracer) (skip : Int) :
    String :=
  String.intercalate "\n" (bfd_tracer.traceLines resolve t skip)

/-- Modelled from the spec: `bfd_tracer::bfd_tracer(const bfd_tracer &)`
(declared header line 62, defined outside `src/`): duplicates the
max-frame bound, the frame count and the captured address list
(spec 4.5, deep copy of the address list). -/
def bfd_tracer.copy (t : bfd_tracer) : bfd_tracer :=
  ⟨t.maxframes, t.frames, t.tbuf⟩

/-- The Dwarf backend's data members (header lines 112-115), identical in
shape to the BFD backend's. -/
structure dwarf_tracer where
  maxframes : Int
  frames : Int
  tbuf : List StackFrame

/-- Modelled from the spec: `dwarf_tracer::dwarf_tracer(int)` (declared
header line 89, defined outside `src/`): captures the current stack at
construction, up to `_maxframes` frames (spec 4.2). -/
def dwarf_tracer.construct (stack : Option (List StackFrame))
    (_maxframes : Int) : dwarf_tracer :=
  let buf := capture stack _maxframes
  ⟨_maxframes, (buf.length : Int), buf⟩

/-- Modelled from the spec: the lines of `dwarf_tracer::trace(int)`
(declared header line 105, defined outside `src/`). -/
def dwarf_tracer.traceLines (resolve : Resolver) (t : dwarf_tracer)
    (skip : Int) : List String :=
  render resolve t.tbuf skip

/-- Modelled from the spec: `dwarf_tracer::trace(int)` as a single
multi-line string. -/
def dwarf_tracer.trace (resolve : Resolver) (t : dwarf_tracer)
    (skip : Int) : String :=
  String.intercalate "\n" (dwarf_tracer.traceLines resolve t skip)

/-- Modelled from the spec: `dwarf_tracer::dwarf_tracer(const dwarf_tracer &)`
(declared header line 108, defined outside `src/`): duplicates the state
memberwise. -/
def dwarf_tracer.copy (t : dwarf_tracer) : dwarf_tracer :=
  ⟨t.maxframes, t.frames, t.tbuf⟩

/-- The three mutually exclusive build configurations of header
lines 141-150: `USE_BFD`, else `USE_DWARF`, else the dummy backend. -/
inductive Build where
  | useBFD : Build
  | useDWARF : Build
  | useNone : Build
deriving DecidableEq

/-- The `tracer` member of `tracing::exception` is exactly one of the three
backends, selected at build time (header lines 141-150). -/
inductive tracer_impl where
  | bfd : bfd_tracer → tracer_impl
  | dwarf : dwarf_tracer → tracer_impl
  | dummy : dummy_tracer → tracer_impl

/-- Construction of the active backend's tracer member for a given build
configuration, capturing from the ambient stack. -/
def Build.mkTracer (b : Build) (stack : Option (List StackFrame))
    (maxframes : Int) : tracer_impl :=
  match b with
  | .useBFD => .bfd (bfd_tracer.construct stack maxframes)
  | .useDWARF => .dwarf (dwarf_tracer.construct stack maxframes)
  | .useNone => .dummy (dummy_tracer.construct maxframes)

/-- Dispatch of `trace` to the active backend. -/
def tracer_impl.trace (resolve : Resolver) : tracer_impl → Int → String
  | .bfd t, skip => bfd_tracer.trace resolve t skip
  | .dwarf t, skip => dwarf_tracer.trace resolve t skip
  | .dummy t, skip => dummy_tracer.trace t skip

/-- The captured frame buffer held by the active backend (the dummy
backend captures nothing). -/
def tracer_impl.frameBuffer : tracer_impl → List StackFrame
  | .bfd t => t.tbuf
  | .dwarf t => t.tbuf
  | .dummy _ => []

/-- Modelled from the spec: the fixed default max-frame count the
`exception` constructor passes to the tracer member (spec 4.5; the exact
value is in the implementation file, not under `src/`). -/
def defaultMaxFrames : Int := 100

/-- Modelled from the spec: the fixed skip count `where()` passes to the
backend's `trace` (spec 4.5 allows a default skip; `where()` takes no
parameter in the header, line 138). -/
def defaultSkip : Int := 0

/-- `tracing::exception` (header lines 124-151): holds the build-selected
tracer member, plus the lazily cached trace text (spec 3, TraceText:
"computed once per exception instance (cached)"). -/
structure exception where
  tracer : tracer_impl
  cachedTrace : Option String

/-- Modelled from the spec: `exception::exception()` (declared header
line 130, defined outside `src/`): constructing the exception constructs
its tracer member immediately, which captures the ambient stack with the
fixed default max-frame count (spec 4.5); nothing is cached yet. -/
def exception.construct (b : Build) (stack : Option (List StackFrame)) :
    exception :=
  ⟨b.mkTracer stack defaultMaxFrames, none⟩

/-- Modelled from the spec: `exception::where()` (declared `const char *
where() const throw()`, header line 138, defined outside `src/`): renders
the trace via the active backend with the default skip, caching the text;
returns the text together with the post-call instance state. -/
def exception.whereCall (resolve : Resolver) (e : exception) :
    String × exception :=
  match e.cachedTrace with
  | some s => (s, e)
  | none =>
    let s := e.tracer.trace resolve defaultSkip
    (s, ⟨e.tracer, some s⟩)

/-- The implicit copy constructor of `tracing::exception`: copies the
tracer member via the backend's copy constructor (deep copy of the
address list) and the cached text. -/
def exception.copy (e : exception) : exception :=
  ⟨match e.tracer with
    | .bfd t => .bfd t.copy
    | .dwarf t => .dwarf t.copy
    | .dummy t => .dummy t, e.cachedTrace⟩

/-- `tracing::runtime_error` (header lines 158-169): stores the message
passed at construction. -/
structure runtime_error extends exception where
  msg : String

/-- `runtime_error::runtime_error(const std::string &)` (header
lines 161-162): explicitly forwards to `exception()` and stores the
message unmodified. -/
def runtime_error.construct (b : Build) (stack : Option (List StackFrame))
    (arg : String) : runtime_error :=
  ⟨exception.construct b stack, arg⟩

/-- `runtime_error::what()` (header lines 164-165): returns the stored
message. -/
def runtime_error.what (e : runtime_error) : String := e.msg

/-- `tracing::logic_error` (header lines 176-187): stores the message
passed at construction in `_M_msg`. -/
structure logic_error extends exception where
  M_msg : String

/-- `logic_error::logic_error(const std::string &)` (header line 182):
does not explicitly name the base `exception()` in its initializer list;
C++ then default-constructs the base anyway, so the tracer member still
captures the ambient stack at construction time. -/
def logic_error.construct (b : Build) (stack : Option (List StackFrame))
    (arg : String) : logic_error :=
  ⟨exception.construct b stack, arg⟩

/-- `logic_error::what()` (header line 186): returns the stored message. -/
def logic_error.what (e : logic_error) : String := e.M_msg

/-- The implicit copy constructor of `runtime_error`: copies the base
`exception` (hence the tracer, via the backend's copy constructor) and the
stored message. -/
def runtime_error.copy (e : runtime_error) : runtime_error :=
  ⟨e.toexception.copy, e.msg⟩

/-- The implicit copy constructor of `logic_error`: copies the base
`exception` and the stored message. -/
def logic_error.copy (e : logic_error) : logic_error :=
  ⟨e.toexception.copy, e.M_msg⟩

/-- The two error categories of the layer (spec 4.6): external failures
(the `runtime_error` branch) and internal-logic failures (the
`logic_error` branch). -/
inductive Category where
  | external_failure : Category
  | internal_logic : Category
deriving DecidableEq

/-- `tracing::domain_error` (header lines 192-196), a leaf under
`logic_error`. -/
structure domain_error extends logic_error

/-- Modelled from the spec: `domain_error::domain_error` is only declared
in the header (line 195); per spec 4.6 each leaf forwards its message to
its category base unmodified. -/
def domain_error.construct (b : Build) (stack : Option (List StackFrame))
    (arg : String) : domain_error :=
  ⟨logic_error.construct b stack arg⟩

/-- Category of `domain_error`, fixed by its base class in the header:
it extends `logic_error`. -/
def domain_error.category : Category := .internal_logic

/-- `tracing::invalid_argument` (header lines 199-203), a leaf under
`logic_error`. -/
structure invalid_argument extends logic_error

/-- `invalid_argument::invalid_argument` (header line 202): forwards the
message to `logic_error` unmodified (inline in the header). -/
def invalid_argument.construct (b : Build)
    (stack : Option (List StackFrame)) (arg : String) : invalid_argument :=
  ⟨logic_error.construct b stack arg⟩

/-- Category of `invalid_argument`: it extends `logic_error`. -/
def invalid_argument.category : Category := .internal_logic

/-- `tracing::length_error` (header lines 207-211), a leaf under
`logic_error`. -/
structure length_error extends logic_error

/-- Modelled from the spec: `length_error::length_error` is only declared
in the header (line 210); per spec 4.6 it forwards its message
unmodified. -/
def length_error.construct (b : Build) (stack : Option (List StackFrame))
    (arg : String) : length_error :=
  ⟨logic_error.construct b stack arg⟩

/-- Category of `length_error`: it extends `logic_error`. -/
def length_error.category : Category := .internal_logic

/-- `tracing::out_of_range` (header lines 215-219), a leaf under
`logic_error`. -/
structure out_of_range extends logic_error

/-- Modelled from the spec: `out_of_range::out_of_range` is only declared
in the header (line 218); per spec 4.6 it forwards its message
unmodified. -/
def out_of_range.construct (b : Build) (stack : Option (List StackFrame))
    (arg : String) : out_of_range :=
  ⟨logic_error.construct b stack arg⟩

/-- Category of `out_of_range`: it extends `logic_error`. -/
def out_of_range.category : Category := .internal_logic

/-- `tracing::range_error` (header lines 223-227), a leaf under
`runtime_error`. -/
structure range_error extends runtime_error

/-- Modelled from the spec: `range_error::range_error` is only declared in
the header (line 226); per spec 4.6 it forwards its message unmodified. -/
def range_error.construct (b : Build) (stack : Option (List StackFrame))
    (arg : String) : range_error :=
  ⟨runtime_error.construct b stack arg⟩

/-- Category of `range_error`: it extends `runtime_error`. -/
def range_error.category : Category := .external_failure

/-- `tracing::overflow_error` (header lines 230-234), a leaf under
`runtime_error`. -/
structure overflow_error extends runtime_error

/-- Modelled from the spec: `overflow_error::overflow_error` is only
declared in the header (line 233); per spec 4.6 it forwards its message
unmodified. -/
def overflow_error.construct (b : Build) (stack : Option (List StackFrame))
    (arg : String) : overflow_error :=
  ⟨runtime_error.construct b stack arg⟩

/-- Category of `overflow_error`: it extends `runtime_error`. -/
def overflow_error.category : Category := .external_failure

/-- `tracing::underflow_error` (header lines 237-241), a leaf under
`runtime_error`. -/
structure underflow_error extends runtime_error

/-- Modelled from the spec: `underflow_error::underflow_error` is only
declared in the header (line 240); per spec 4.6 it forwards its message
unmodified. -/
def underflow_error.construct (b : Build)
    (stack : Option (List StackFrame)) (arg : String) : underflow_error :=
  ⟨runtime_error.construct b stack arg⟩

/-- Category of `underflow_error`: it extends `runtime_error`. -/
def underflow_error.category : Category := .external_failure

/-- C++ member access level, for the declaration-level facts of the
header. -/
inductive access where
  | pub : access
  | priv : access
deriving DecidableEq

/-- The declaration-level shape of a tracer class: the access level of its
copy constructor and of its copy-assignment operator. -/
structure tracerClassDecl where
  copyCtorAccess : access
  assignAccess : access
deriving DecidableEq

/-- Transliterated from the header: `bfd_tracer` declares its copy
constructor in the public section (line 62) and its assignment operator,
commented "Disabled assignment operator", in the private section
(line 72, inside the `private:` block opened at line 64). -/
def bfd_tracer_decl : tracerClassDecl := ⟨.pub, .priv⟩

/-- Transliterated from the header: `dwarf_tracer` declares its copy
constructor (line 108) and its assignment operator (line 110) both in the
public section opened at line 84; its `private:` block starts only at
line 112, after the assignment operator. -/
def dwarf_tracer_decl : tracerClassDecl := ⟨.pub, .pub⟩

/-- Copy-assignment is disabled, in the C++98 idiom used by `bfd_tracer`:
the operator is declared in a private section, so no client code can
invoke it. -/
abbrev tracerClassDecl.assignDisabled (d : tracerClassDecl) : Prop :=
  d.assignAccess = access.priv

/-- Copy-construction is enabled: the copy constructor is public. -/
abbrev tracerClassDecl.copyCtorEnabled (d : tracerClassDecl) : Prop :=
  d.copyCtorAccess = access.pub

/-- Copying an exception duplicates its state memberwise (the address list
is a list of scalars), so the copy equals the original as a value. -/
theorem exception.copy_eq (e : exception) : e.copy = e := by
  obtain ⟨t, c⟩ := e
  cases t <;> rfl

/-- C1: every instance of the traceable exception family captures exactly
one frame buffer, at construction time: the tracer member of a freshly
constructed instance of the base class and of every leaf (including
`logic_error`, whose constructor does not explicitly forward to the base
`exception` constructor) is exactly the tracer the active backend builds
from the construction-time stack with the default max-frame count; and
neither querying `where()` nor copying (catch/rethrow by value) captures
or replaces the buffer. -/
theorem C1_buffer_captured_once_at_construction
    (b : Build) (stack : Option (List StackFrame)) (arg : String)
    (resolve : Resolver) :
    ((exception.construct b stack).tracer = b.mkTracer stack defaultMaxFrames)
  ∧ ((runtime_error.construct b stack arg).toexception.tracer
      = b.mkTracer stack defaultMaxFrames)
  ∧ ((logic_error.construct b stack arg).toexception.tracer
      = b.mkTracer stack defaultMaxFrames)
  ∧ ((domain_error.construct b stack arg).tologic_error.toexception.tracer
      = b.mkTracer stack defaultMaxFrames)
  ∧ ((invalid_argument.construct b stack arg).tologic_error.toexception.tracer
      = b.mkTracer stack defaultMaxFrames)
  ∧ ((length_error.construct b stack arg).tologic_error.toexception.tracer
      = b.mkTracer stack defaultMaxFrames)
  ∧ ((out_of_range.construct b stack arg).tologic_error.toexception.tracer
      = b.mkTracer stack defaultMaxFrames)
  ∧ ((range_error.construct b stack arg).toruntime_error.toexception.tracer
      = b.mkTracer stack defaultMaxFrames)
  ∧ ((overflow_error.construct b stack arg).toruntime_error.toexception.tracer
      = b.mkTracer stack defaultMaxFrames)
  ∧ ((underflow_error.construct b stack arg).toruntime_error.toexception.tracer
      = b.mkTracer stack defaultMaxFrames)
  ∧ (∀ e : exception, ((e.whereCall resolve).2).tracer = e.tracer)
  ∧ (∀ e : exception, (e.copy).tracer = e.tracer) := by
  refine ⟨rfl, rfl, rfl, rfl, rfl, rfl, rfl, rfl, rfl, rfl, ?_, ?_⟩
  · intro e
    obtain ⟨t, c⟩ := e
    cases c <;> simp [exception.whereCall]
  · intro e
    rw [exception.copy_eq]

/-- C2: tracing never raises an error and degrades silently: a failed or
unavailable stack walk yields an empty frame buffer (in `capture` and in
both rich-backend constructors), a frame whose symbols do not resolve
falls back to address-only output, and `where()` on an exception whose
walk failed returns the empty rendering rather than propagating any
error. -/
theorem C2_tracing_degrades_silently
    (resolve : Resolver) (n : Int) (f : StackFrame)
    (h : resolve f = (none, none)) :
    capture none n = []
  ∧ (bfd_tracer.construct none n).tbuf = []
  ∧ (dwarf_tracer.construct none n).tbuf = []
  ∧ renderFrame resolve f = hexAddr f
  ∧ ((exception.construct Build.useBFD none).whereCall resolve).1 = ""
  ∧ ((exception.construct Build.useDWARF none).whereCall resolve).1 = "" := by
  refine ⟨rfl, rfl, rfl, ?_, rfl, rfl⟩
  simp [renderFrame, h]

/-- Witness for C2 at a concrete resolver, frame and max-frame count. -/
theorem C2_tracing_degrades_silently_witness :
    capture none 5 = []
  ∧ (bfd_tracer.construct none 5).tbuf = []
  ∧ (dwarf_tracer.construct none 5).tbuf = []
  ∧ renderFrame (fun _ => (none, none)) 7 = hexAddr 7
  ∧ ((exception.construct Build.useBFD none).whereCall
      (fun _ => (none, none))).1 = ""
  ∧ ((exception.construct Build.useDWARF none).whereCall
      (fun _ => (none, none))).1 = "" :=
  C2_tracing_degrades_silently (fun _ => (none, none)) 5 7 rfl

/-- C3: with the no-op (dummy) backend active, the trace is the fixed
sentinel "Tracing disabled" for every max-frames value passed at
construction and every skip value passed at query, both through the
backend's `trace` and through `where()`, and the sentinel is not the
empty string. -/
theorem C3_dummy_backend_sentinel
    (mf skip : Int) (stack : Option (List StackFrame)) (resolve : Resolver) :
    dummy_tracer.trace (dummy_tracer.construct mf) skip = "Tracing disabled"
  ∧ ((exception.construct Build.useNone stack).whereCall resolve).1
      = "Tracing disabled"
  ∧ "Tracing disabled" ≠ "" :=
  ⟨rfl, rfl, by decide⟩

/-- C4: constructing any leaf exception of either category with a message
m and calling `what()` returns exactly m, unmodified; and every leaf's
category matches its declared branch of the hierarchy (external-failure
for the `runtime_error` branch, internal-logic for the `logic_error`
branch). -/
theorem C4_leaf_message_and_category
    (b : Build) (stack : Option (List StackFrame)) (m : String) :
    ((runtime_error.construct b stack m).what = m
   ∧ (logic_error.construct b stack m).what = m
   ∧ (domain_error.construct b stack m).tologic_error.what = m
   ∧ (invalid_argument.construct b stack m).tologic_error.what = m
   ∧ (length_error.construct b stack m).tologic_error.what = m
   ∧ (out_of_range.construct b stack m).tologic_error.what = m
   ∧ (range_error.construct b stack m).toruntime_error.what = m
   ∧ (overflow_error.construct b stack m).toruntime_error.what = m
   ∧ (underflow_error.construct b stack m).toruntime_error.what = m)
  ∧ (domain_error.category = Category.internal_logic
   ∧ invalid_argument.category = Category.internal_logic
   ∧ length_error.category = Category.internal_logic
   ∧ out_of_range.category = Category.internal_logic
   ∧ range_error.category = Category.external_failure
   ∧ overflow_error.category = Category.external_failure
   ∧ underflow_error.category = Category.external_failure) :=
  ⟨⟨rfl, rfl, rfl, rfl, rfl, rfl, rfl, rfl, rfl⟩,
   rfl, rfl, rfl, rfl, rfl, rfl, rfl⟩

/-- C5: two successive calls of `where()` on the same exception instance,
with no intervening operation, return byte-identical strings (and leave
the instance in the same state), whichever backend is active and whether
or not the trace text was already cached. -/
theorem C5_where_idempotent (e : exception) (resolve : Resolver) :
    ((e.whereCall resolve).2.whereCall resolve).1 = (e.whereCall resolve).1
  ∧ ((e.whereCall resolve).2.whereCall resolve).2
      = (e.whereCall resolve).2 := by
  obtain ⟨t, c⟩ := e
  cases c <;> simp [exception.whereCall]

/-- C6: for every max-frames argument n ≥ 1 the buffer captured by a
rich-backend tracer's constructor has at most n frames (its length is a
natural number, hence ≥ 0), and for every n ≤ 0 the captured buffer is
empty, with no error in either case. -/
theorem C6_capture_respects_maxframes
    (stack : Option (List StackFrame)) (n : Int) :
    (1 ≤ n →
      ((bfd_tracer.construct stack n).tbuf.length : Int) ≤ n
    ∧ ((dwarf_tracer.construct stack n).tbuf.length : Int) ≤ n)
  ∧ (n ≤ 0 →
      (bfd_tracer.construct stack n).tbuf = []
    ∧ (dwarf_tracer.construct stack n).tbuf = []) := by
  constructor
  · intro hn
    have h : ((capture stack n).length : Int) ≤ n := by
      cases stack with
      | none => simp [capture]; omega
      | some l => simp [capture, List.length_take]; omega
    exact ⟨h, h⟩
  · intro hn
    have h : capture stack n = [] := by
      cases stack with
      | none => rfl
      | some l => simp [capture, Int.toNat_of_nonpos hn]
    exact ⟨h, h⟩

/-- Witness for C6 at a concrete stack, with n = 2 and n = -1. -/
theorem C6_capture_respects_maxframes_witness :
    (((bfd_tracer.construct (some [5, 6, 7]) 2).tbuf.length : Int) ≤ 2
   ∧ ((dwarf_tracer.construct (some [5, 6, 7]) 2).tbuf.length : Int) ≤ 2)
  ∧ ((bfd_tracer.construct (some [5, 6, 7]) (-1)).tbuf = []
   ∧ (dwarf_tracer.construct (some [5, 6, 7]) (-1)).tbuf = []) :=
  ⟨(C6_capture_respects_maxframes (some [5, 6, 7]) 2).1 (by decide),
   (C6_capture_respects_maxframes (some [5, 6, 7]) (-1)).2 (by decide)⟩

/-- C7: for every buffer and every skip s ≥ 0, rendering produces exactly
max(0, bufferLength − s) output lines — this holds for the shared `render`
operation and for both rich backends' trace lines — and a skip at or
beyond the buffer length yields empty output rather than an error. -/
theorem C7_render_line_count
    (resolve : Resolver) (buf : List StackFrame) (skip : Int)
    (t : bfd_tracer) (u : dwarf_tracer) (h : 0 ≤ skip) :
    ((render resolve buf skip).length : Int)
      = max 0 ((buf.length : Int) - skip)
  ∧ ((buf.length : Int) ≤ skip → render resolve buf skip = [])
  ∧ ((bfd_tracer.traceLines resolve t skip).length : Int)
      = max 0 ((t.tbuf.length : Int) - skip)
  ∧ ((dwarf_tracer.traceLines resolve u skip).length : Int)
      = max 0 ((u.tbuf.length : Int) - skip) := by
  have key : ∀ l : List StackFrame,
      ((render resolve l skip).length : Int)
        = max 0 ((l.length : Int) - skip) := by
    intro l
    simp [render, List.length_drop]
    omega
  refine ⟨key buf, ?_, key t.tbuf, key u.tbuf⟩
  intro hle
  have hn : buf.length ≤ skip.toNat := by omega
  simp [render, List.drop_eq_nil_of_le hn]

/-- Witness for C7 at a concrete resolver, buffer and tracers, skip = 1. -/
theorem C7_render_line_count_witness :
    ((render (fun _ => (none, none)) [3, 4, 5] 1).length : Int)
      = max 0 ((([3, 4, 5] : List StackFrame).length : Int) - 1)
  ∧ ((([3, 4, 5] : List StackFrame).length : Int) ≤ 1 →
      render (fun _ => (none, none)) [3, 4, 5] 1 = [])
  ∧ ((bfd_tracer.traceLines (fun _ => (none, none)) ⟨3, 2, [8, 9]⟩ 1).length
      : Int) = max 0 (((⟨3, 2, [8, 9]⟩ : bfd_tracer).tbuf.length : Int) - 1)
  ∧ ((dwarf_tracer.traceLines (fun _ => (none, none)) ⟨1, 1, [2]⟩ 1).length
      : Int) = max 0 (((⟨1, 1, [2]⟩ : dwarf_tracer).tbuf.length : Int) - 1) :=
  C7_render_line_count (fun _ => (none, none)) [3, 4, 5] 1
    ⟨3, 2, [8, 9]⟩ ⟨1, 1, [2]⟩ (by decide)

/-- C8: every retained frame yields exactly one output line (the rendered
list is index-for-index the per-frame rendering of the buffer with the
skipped prefix dropped, so no retained frame is omitted); a frame whose
function resolves but whose line does not renders as "function @ 0xADDR",
and a frame where neither resolves renders as "0xADDR" alone. -/
theorem C8_per_frame_rendering
    (resolve : Resolver) (buf : List StackFrame) (skip : Int) (i : Nat)
    (f : StackFrame) (fn : String) :
    (render resolve buf skip).length = (buf.drop skip.toNat).length
  ∧ (render resolve buf skip)[i]?
      = Option.map (renderFrame resolve) (buf.drop skip.toNat)[i]?
  ∧ (resolve f = (some fn, none) →
      renderFrame resolve f = fn ++ " @ " ++ hexAddr f)
  ∧ (resolve f = (none, none) → renderFrame resolve f = hexAddr f) := by
  refine ⟨by simp [render], by simp [render, List.getElem?_map], ?_, ?_⟩
  · intro h
    simp [renderFrame, h]
  · intro h
    simp [renderFrame, h]

/-- Witness for C8 at a concrete resolver resolving frame 1 to a function
name without a line and frame 2 to nothing. -/
theorem C8_per_frame_rendering_witness :
    ((render (fun x => if x = 1 then (some "foo", none) else (none, none))
        [1, 2] 0).length
      = (([1, 2] : List StackFrame).drop (Int.toNat 0)).length)
  ∧ (renderFrame (fun x => if x = 1 then (some "foo", none) else (none, none))
        1 = "foo" ++ " @ " ++ hexAddr 1)
  ∧ (renderFrame (fun x => if x = 1 then (some "foo", none) else (none, none))
        2 = hexAddr 2) :=
  ⟨(C8_per_frame_rendering
      (fun x => if x = 1 then (some "foo", none) else (none, none))
      [1, 2] 0 0 1 "foo").1,
   (C8_per_frame_rendering
      (fun x => if x = 1 then (some "foo", none) else (none, none))
      [1, 2] 0 0 1 "foo").2.2.1 (by decide),
   (C8_per_frame_rendering
      (fun x => if x = 1 then (some "foo", none) else (none, none))
      [1, 2] 0 0 2 "foo").2.2.2 (by decide)⟩

/-- C9: copy-constructing an exception preserves the observable interface:
the copy's `what()` equals the original's, the copy's `where()` output
equals the original's (the copy deep-copies the captured address list, so
it renders the same addresses), and the copy's frame buffer equals the
original's. -/
theorem C9_copy_preserves_interface
    (e : runtime_error) (l : logic_error) (resolve : Resolver) :
    (e.copy).what = e.what
  ∧ (l.copy).what = l.what
  ∧ ((e.copy).toexception.whereCall resolve).1
      = (e.toexception.whereCall resolve).1
  ∧ ((l.copy).toexception.whereCall resolve).1
      = (l.toexception.whereCall resolve).1
  ∧ (∀ x : exception, (x.copy).tracer.frameBuffer
      = x.tracer.frameBuffer) := by
  refine ⟨rfl, rfl, ?_, ?_, ?_⟩
  · simp [runtime_error.copy, exception.copy_eq]
  · simp [logic_error.copy, exception.copy_eq]
  · intro x
    rw [exception.copy_eq]

/-- C10 counterexample: the claim "copy-assignment is disabled on every
tracer type" is false for `dwarf_tracer`: the header declares its
assignment operator in the public section (line 110), so it is not
disabled in the private-declaration idiom `bfd_tracer` uses. -/
theorem C10_dwarf_assign_not_disabled :
    ¬ dwarf_tracer_decl.assignDisabled := by decide

/-- C10 (amended): copy-assignment is disabled (declared private) on the
BFD tracer while its copy constructor remains public; the Dwarf tracer
keeps its copy constructor public but declares its assignment operator
public as well, so only the BFD tracer disables assignment at the
class-declaration level. -/
theorem C10_assignment_accessibility :
    bfd_tracer_decl.assignDisabled
  ∧ bfd_tracer_decl.copyCtorEnabled
  ∧ dwarf_tracer_decl.copyCtorEnabled
  ∧ dwarf_tracer_decl.assignAccess = access.pub := by decide

end tracing
